import Mathlib

/-!
Shallow embedding of the gaelog package (github.com/mtraver/gaelog): a
request-scoped logging adapter for App Engine / Cloud Run. Environment
variables, the memoized metadata lookup, and the backend client
initialization are passed explicitly; fallible Go functions returning
(value, error) are modelled with Except / Option.
-/

namespace Gaelog

/-- Severity levels of the backend logging library
(cloud.google.com/go/logging.Severity), Debug through Emergency. -/
inductive Severity where
  | Debug
  | Info
  | Notice
  | Warning
  | Error
  | Critical
  | Alert
  | Emergency
  deriving DecidableEq, Repr

/-- Model of monitoredres.MonitoredResource: a label map (listed in the
order the labels appear in the source literal) plus a type tag. -/
structure MonitoredResource where
  labels : List (String × String)
  type : String
  deriving DecidableEq, Repr

/-- The environment variables the package reads. Go os.Getenv returns ""
when a variable is unset, so unset and empty are conflated, as in the
source. -/
structure Env where
  GOOGLE_CLOUD_PROJECT : String
  GAE_SERVICE : String
  GAE_VERSION : String
  K_SERVICE : String
  K_REVISION : String
  K_CONFIGURATION : String
  deriving DecidableEq, Repr

/-- Constant DefaultLogID from the source. -/
def DefaultLogID : String := "app_log"

/-- Constant GAEAppResourceType from the source. -/
def GAEAppResourceType : String := "gae_app"

/-- Constant CloudRunResourceType from the source. -/
def CloudRunResourceType : String := "cloud_run_revision"

/-- Constant traceContextHeaderName from the source. -/
def traceContextHeaderName : String := "X-Cloud-Trace-Context"

/-- Result of the memoized metadata lookup projectIDFromMetadataService:
either the project ID or the error from metadata.ProjectID, cached for
all calls in the process. -/
abbrev MetadataResult := Except String String

/-- Go: traceID(projectID, trace) returns
fmt.Sprintf of the pieces projects/, projectID, /traces/, trace. -/
def traceID (projectID trace : String) : String :=
  "projects/" ++ projectID ++ "/traces/" ++ trace

/-- serviceInfo struct from the source. -/
structure serviceInfo where
  projectID : String
  resource : MonitoredResource
  deriving DecidableEq, Repr

/-- The error message newServiceInfo returns when GOOGLE_CLOUD_PROJECT is
set but GAE_SERVICE or GAE_VERSION is not. -/
def gaeEnvErrMsg : String :=
  "gaelog: $GOOGLE_CLOUD_PROJECT is set so $GAE_SERVICE and $GAE_VERSION are expected to be set, but one or both are not. Falling back to standard library log."

/-- The error message newServiceInfo returns when the project ID came from
the metadata service but a K_ variable is missing. -/
def cloudRunEnvErrMsg : String :=
  "gaelog: the project ID was fetched from the metadata service so $K_SERVICE, $K_REVISION, and $K_CONFIGURATION are expected to be set, but one or more are not. Falling back to standard library log."

/-- The error message NewWithID returns when the trace context header is
not set. -/
def headerErrMsg : String :=
  "gaelog: " ++ traceContextHeaderName ++ " header is not set, falling back to standard library log"

/-- Embedding of newServiceInfo: App Engine env vars first; otherwise the
memoized metadata lookup plus the Cloud Run env vars. -/
def newServiceInfo (env : Env) (metadata : MetadataResult) :
    Except String serviceInfo :=
  if env.GOOGLE_CLOUD_PROJECT ≠ "" then
    if env.GAE_SERVICE = "" ∨ env.GAE_VERSION = "" then
      .error gaeEnvErrMsg
    else
      .ok { projectID := env.GOOGLE_CLOUD_PROJECT
            resource := {
              labels := [("project_id", env.GOOGLE_CLOUD_PROJECT),
                         ("module_id", env.GAE_SERVICE),
                         ("version_id", env.GAE_VERSION)]
              type := GAEAppResourceType } }
  else
    match metadata with
    | .error e => .error e
    | .ok crProjectID =>
      if env.K_SERVICE = "" ∨ env.K_REVISION = "" ∨ env.K_CONFIGURATION = "" then
        .error cloudRunEnvErrMsg
      else
        .ok { projectID := crProjectID
              resource := {
                labels := [("project_id", crProjectID),
                           ("service_name", env.K_SERVICE),
                           ("revision_name", env.K_REVISION),
                           ("configuration_name", env.K_CONFIGURATION)]
                type := CloudRunResourceType } }

/-- Model of the backend client (logging.Client): the only behavior of it
this package observes is the result of its Close method; none models a
nil error. -/
structure Client where
  closeResult : Option String
  deriving DecidableEq, Repr

/-- Go: client.Close() returns the stored result verbatim. -/
def Client.close (c : Client) : Option String := c.closeResult

/-- Model of the backend logger handle from client.Logger(logID, options). -/
structure BackendLogger where
  logID : String
  deriving DecidableEq, Repr

/-- Model of the inbound http.Request: its header map. -/
structure Request where
  headers : List (String × String)
  deriving DecidableEq, Repr

/-- Model of Go http.Header.Get: the header value, or "" when absent. -/
def Request.headerGet (r : Request) (key : String) : String :=
  (r.headers.lookup key).getD ""

/-- The Logger struct: optional backend client and logger handles (both
absent in fallback mode), the monitored resource, and the trace string. -/
structure Logger where
  client : Option Client
  logger : Option BackendLogger
  monRes : Option MonitoredResource
  trace : String
  deriving DecidableEq, Repr

/-- The zero Logger that every error path of NewWithID returns
(Go: a fresh empty Logger literal). -/
def Logger.zero : Logger :=
  { client := none, logger := none, monRes := none, trace := "" }

/-- Model of the Go standard library call that splits traceContext on the
slash character and takes element 0: the prefix of s up to (not
including) the first slash, the whole of s when it has none. -/
def splitFirst (s : String) : String :=
  String.mk (s.data.takeWhile (fun c => c != '/'))

/-- Embedding of NewWithID. env is the process environment, metadata the
memoized metadata-lookup result, clientInit the result of
logging.NewClient. Returns the Logger and the error (none models nil). -/
def NewWithID (env : Env) (metadata : MetadataResult)
    (clientInit : Except String Client) (r : Request) (logID : String) :
    Logger × Option String :=
  match newServiceInfo env metadata with
  | .error err => (Logger.zero, some err)
  | .ok info =>
    if r.headerGet traceContextHeaderName = "" then
      (Logger.zero, some headerErrMsg)
    else
      match clientInit with
      | .error err => (Logger.zero, some err)
      | .ok client =>
        ({ client := some client
           logger := some { logID := logID }
           monRes := some info.resource
           trace := traceID info.projectID
                      (splitFirst (r.headerGet traceContextHeaderName)) },
         none)

/-- New is NewWithID with the default log ID. -/
def New (env : Env) (metadata : MetadataResult)
    (clientInit : Except String Client) (r : Request) :
    Logger × Option String :=
  NewWithID env metadata clientInit r DefaultLogID

/-- Embedding of Logger.Close: delegate to the client when present,
otherwise nil. -/
def Logger.Close (lg : Logger) : Option String :=
  match lg.client with
  | some c => c.close
  | none => none

/-- Payload of a log entry: a formatted string (Logf) or a structured
value (Log), the latter modelled by its rendering. -/
inductive Payload where
  | text (s : String)
  | value (v : String)
  deriving DecidableEq, Repr

/-- The logging.Entry the Logger submits: capture time, severity,
payload, and the Logger's fixed trace and resource. -/
structure Entry where
  timestamp : Nat
  severity : Severity
  payload : Payload
  trace : String
  resource : Option MonitoredResource
  deriving DecidableEq, Repr

/-- Observable effect of one logging call: a structured entry submitted to
the backend, or a line written via the standard library log package. -/
inductive LogOutput where
  | backend (e : Entry)
  | stdlog (line : String)
  deriving DecidableEq, Repr

/-- Embedding of Logger.Logf. msg is the fmt.Sprintf result of format and
args; now is the capture time. -/
def Logger.Logf (lg : Logger) (now : Nat) (severity : Severity)
    (msg : String) : LogOutput :=
  match lg.logger with
  | none => .stdlog msg
  | some _ =>
    .backend { timestamp := now, severity := severity, payload := .text msg,
               trace := lg.trace, resource := lg.monRes }

/-- Embedding of Logger.Log. v is the structured value, modelled by its
rendering (log.Print uses the default rendering in the fallback branch). -/
def Logger.Log (lg : Logger) (now : Nat) (severity : Severity)
    (v : String) : LogOutput :=
  match lg.logger with
  | none => .stdlog v
  | some _ =>
    .backend { timestamp := now, severity := severity, payload := .value v,
               trace := lg.trace, resource := lg.monRes }

/-- Logger.Debugf calls Logf with debug severity. -/
def Logger.Debugf (lg : Logger) (now : Nat) (msg : String) : LogOutput :=
  lg.Logf now .Debug msg

/-- Logger.Infof calls Logf with info severity. -/
def Logger.Infof (lg : Logger) (now : Nat) (msg : String) : LogOutput :=
  lg.Logf now .Info msg

/-- Logger.Noticef calls Logf with notice severity. -/
def Logger.Noticef (lg : Logger) (now : Nat) (msg : String) : LogOutput :=
  lg.Logf now .Notice msg

/-- Logger.Warningf calls Logf with warning severity. -/
def Logger.Warningf (lg : Logger) (now : Nat) (msg : String) : LogOutput :=
  lg.Logf now .Warning msg

/-- Logger.Errorf calls Logf with error severity. -/
def Logger.Errorf (lg : Logger) (now : Nat) (msg : String) : LogOutput :=
  lg.Logf now .Error msg

/-- Logger.Criticalf calls Logf with critical severity. -/
def Logger.Criticalf (lg : Logger) (now : Nat) (msg : String) : LogOutput :=
  lg.Logf now .Critical msg

/-- Logger.Alertf calls Logf with alert severity. -/
def Logger.Alertf (lg : Logger) (now : Nat) (msg : String) : LogOutput :=
  lg.Logf now .Alert msg

/-- Logger.Emergencyf calls Logf with emergency severity. -/
def Logger.Emergencyf (lg : Logger) (now : Nat) (msg : String) : LogOutput :=
  lg.Logf now .Emergency msg

/-- Logger.Debug calls Log with debug severity. -/
def Logger.DebugV (lg : Logger) (now : Nat) (v : String) : LogOutput :=
  lg.Log now .Debug v

/-- Logger.Info calls Log with info severity. -/
def Logger.InfoV (lg : Logger) (now : Nat) (v : String) : LogOutput :=
  lg.Log now .Info v

/-- Logger.Notice calls Log with notice severity. -/
def Logger.NoticeV (lg : Logger) (now : Nat) (v : String) : LogOutput :=
  lg.Log now .Notice v

/-- Logger.Warning calls Log with warning severity. -/
def Logger.WarningV (lg : Logger) (now : Nat) (v : String) : LogOutput :=
  lg.Log now .Warning v

/-- Logger.Error calls Log with error severity. -/
def Logger.ErrorV (lg : Logger) (now : Nat) (v : String) : LogOutput :=
  lg.Log now .Error v

/-- Logger.Critical calls Log with critical severity. -/
def Logger.CriticalV (lg : Logger) (now : Nat) (v : String) : LogOutput :=
  lg.Log now .Critical v

/-- Logger.Alert calls Log with alert severity. -/
def Logger.AlertV (lg : Logger) (now : Nat) (v : String) : LogOutput :=
  lg.Log now .Alert v

/-- Logger.Emergency calls Log with emergency severity. -/
def Logger.EmergencyV (lg : Logger) (now : Nat) (v : String) : LogOutput :=
  lg.Log now .Emergency v

/-- The request context as observed through ctx.Value with the package
context key: either no Logger stored (handler not wrapped) or the
per-request Logger. -/
abbrev Context := Option Logger

/-- Embedding of the package-level Logf from wrap.go: use the Logger from
the context, or the standard library log when none is stored. -/
def Logf (ctx : Context) (now : Nat) (severity : Severity)
    (msg : String) : LogOutput :=
  match ctx with
  | none => .stdlog msg
  | some lg => lg.Logf now severity msg

/-- Embedding of the package-level Log from wrap.go. -/
def Log (ctx : Context) (now : Nat) (severity : Severity)
    (v : String) : LogOutput :=
  match ctx with
  | none => .stdlog v
  | some lg => lg.Log now severity v

/-! Helper lemmas shared by the verification theorems. -/

/-- When GOOGLE_CLOUD_PROJECT is set but GAE_SERVICE or GAE_VERSION is
missing, newServiceInfo returns the App Engine configuration error. -/
theorem newServiceInfo_gae_missing {env : Env}
    (hset : env.GOOGLE_CLOUD_PROJECT ≠ "")
    (hmiss : env.GAE_SERVICE = "" ∨ env.GAE_VERSION = "")
    (m : MetadataResult) :
    newServiceInfo env m = .error gaeEnvErrMsg := by
  unfold newServiceInfo
  rw [if_pos hset, if_pos hmiss]

/-- When GOOGLE_CLOUD_PROJECT is empty, a metadata lookup failure is
propagated unchanged. -/
theorem newServiceInfo_metadata_err {env : Env}
    (hgcp : env.GOOGLE_CLOUD_PROJECT = "") (e : String) :
    newServiceInfo env (.error e) = .error e := by
  unfold newServiceInfo
  rw [if_neg (fun h => h hgcp)]

/-- When GOOGLE_CLOUD_PROJECT is empty, the metadata lookup succeeded,
and a Cloud Run variable is missing, newServiceInfo returns the Cloud Run
configuration error. -/
theorem newServiceInfo_cr_missing {env : Env}
    (hgcp : env.GOOGLE_CLOUD_PROJECT = "") (pid : String)
    (hmiss : env.K_SERVICE = "" ∨ env.K_REVISION = "" ∨
      env.K_CONFIGURATION = "") :
    newServiceInfo env (.ok pid) = .error cloudRunEnvErrMsg := by
  unfold newServiceInfo
  rw [if_neg (fun h => h hgcp)]
  exact if_pos hmiss

/-- When GOOGLE_CLOUD_PROJECT is empty, the metadata lookup succeeded,
and all three Cloud Run variables are present, newServiceInfo returns the
Cloud Run service info. -/
theorem newServiceInfo_cr_ok {env : Env}
    (hgcp : env.GOOGLE_CLOUD_PROJECT = "") (pid : String)
    (hs : env.K_SERVICE ≠ "") (hr : env.K_REVISION ≠ "")
    (hc : env.K_CONFIGURATION ≠ "") :
    newServiceInfo env (.ok pid) = .ok
      { projectID := pid
        resource := {
          labels := [("project_id", pid),
                     ("service_name", env.K_SERVICE),
                     ("revision_name", env.K_REVISION),
                     ("configuration_name", env.K_CONFIGURATION)]
          type := CloudRunResourceType } } := by
  unfold newServiceInfo
  rw [if_neg (fun h => h hgcp)]
  exact if_neg (fun h => h.elim (fun h1 => hs h1)
    (fun h2 => h2.elim (fun h3 => hr h3) (fun h4 => hc h4)))

/-- Every error path of NewWithID returns the zero Logger. -/
theorem newWithID_error_zero {env : Env} {m : MetadataResult}
    {ci : Except String Client} {r : Request} {logID : String}
    {lg : Logger} {e : String}
    (h : NewWithID env m ci r logID = (lg, some e)) : lg = Logger.zero := by
  unfold NewWithID at h
  cases hsi : newServiceInfo env m with
  | error err =>
    rw [hsi] at h
    injection h with h1 h2
    exact h1.symm
  | ok info =>
    simp only [hsi] at h
    by_cases hh : r.headerGet traceContextHeaderName = ""
    · rw [if_pos hh] at h
      injection h with h1 h2
      exact h1.symm
    · rw [if_neg hh] at h
      cases ci with
      | error err =>
        injection h with h1 h2
        exact h1.symm
      | ok c =>
        injection h with h1 h2
        exact Option.noConfusion h2

/-- On the success path NewWithID returns the fully populated Logger and
a nil error. -/
theorem newWithID_success {env : Env} {m : MetadataResult}
    {info : serviceInfo} {c : Client} {r : Request} {logID : String}
    (hinfo : newServiceInfo env m = .ok info)
    (hne : r.headerGet traceContextHeaderName ≠ "") :
    NewWithID env m (.ok c) r logID =
      ({ client := some c
         logger := some { logID := logID }
         monRes := some info.resource
         trace := traceID info.projectID
                    (splitFirst (r.headerGet traceContextHeaderName)) },
       none) := by
  unfold NewWithID
  simp only [hinfo]
  rw [if_neg hne]

/-! Verification of the claims. -/

/-- C1: with GOOGLE_CLOUD_PROJECT=my-project, GAE_SERVICE=my-service,
GAE_VERSION=my-version and X-Cloud-Trace-Context header
abcdef0123456789/abcdef, NewWithID succeeds with a nil error, stores the
resource descriptor with labels project_id=my-project,
module_id=my-service, version_id=my-version and type gae_app, and stores
the trace string projects/my-project/traces/abcdef0123456789 — for every
metadata result, client, Cloud Run variable values, and log ID. -/
theorem C1_gae_resolution (m : MetadataResult) (c : Client)
    (ks kr kc logID : String) :
    NewWithID
      { GOOGLE_CLOUD_PROJECT := "my-project", GAE_SERVICE := "my-service",
        GAE_VERSION := "my-version", K_SERVICE := ks, K_REVISION := kr,
        K_CONFIGURATION := kc }
      m (.ok c)
      { headers := [(traceContextHeaderName, "abcdef0123456789/abcdef")] }
      logID =
      ({ client := some c
         logger := some { logID := logID }
         monRes := some {
           labels := [("project_id", "my-project"),
                      ("module_id", "my-service"),
                      ("version_id", "my-version")]
           type := "gae_app" }
         trace := "projects/my-project/traces/abcdef0123456789" },
       none) := by
  rfl

/-- C2: whenever identity resolution succeeded, a present non-empty
X-Cloud-Trace-Context header yields the stored trace
projects/(projectID)/traces/(component) where the component is the
substring of the header value before the first slash — in particular it
is the prefix preceding the first slash occurrence, and the whole header
value when the value contains no slash — while an absent or empty header
makes construction fail with the error citing the header name. -/
theorem C2_trace_extraction (env : Env) (m : MetadataResult) (c : Client)
    (r : Request) (logID : String) (info : serviceInfo)
    (hinfo : newServiceInfo env m = .ok info) :
    (r.headerGet traceContextHeaderName ≠ "" →
      (NewWithID env m (.ok c) r logID).fst.trace =
        "projects/" ++ info.projectID ++ "/traces/" ++
          splitFirst (r.headerGet traceContextHeaderName)) ∧
    (∀ l₁ l₂, (r.headerGet traceContextHeaderName).data = l₁ ++ '/' :: l₂ →
      '/' ∉ l₁ →
      splitFirst (r.headerGet traceContextHeaderName) = String.mk l₁) ∧
    ('/' ∉ (r.headerGet traceContextHeaderName).data →
      splitFirst (r.headerGet traceContextHeaderName) =
        r.headerGet traceContextHeaderName) ∧
    (r.headerGet traceContextHeaderName = "" →
      NewWithID env m (.ok c) r logID =
        (Logger.zero,
         some ("gaelog: " ++ traceContextHeaderName ++
           " header is not set, falling back to standard library log"))) := by
  refine ⟨?_, ?_, ?_, ?_⟩
  · intro hne
    rw [newWithID_success hinfo hne]
    rfl
  · intro l₁ l₂ hdata hnot
    have hall : ∀ a ∈ l₁, (a != '/') = true := by
      intro a ha
      exact bne_iff_ne.mpr (fun hEq => hnot (hEq ▸ ha))
    unfold splitFirst
    rw [hdata, List.takeWhile_append_of_pos hall, List.takeWhile_cons]
    simp
  · intro hnot
    have hall : ∀ a ∈ (r.headerGet traceContextHeaderName).data,
        (a != '/') = true := by
      intro a ha
      exact bne_iff_ne.mpr (fun hEq => hnot (hEq ▸ ha))
    unfold splitFirst
    rw [List.takeWhile_eq_self_iff.mpr hall]
  · intro h0
    unfold NewWithID
    simp only [hinfo]
    rw [if_pos h0]
    rfl

/-- Witness for C2 at a concrete environment, header, and client. -/
theorem C2_trace_extraction_witness :
    (NewWithID
      { GOOGLE_CLOUD_PROJECT := "my-project", GAE_SERVICE := "my-service",
        GAE_VERSION := "my-version", K_SERVICE := "", K_REVISION := "",
        K_CONFIGURATION := "" }
      (Except.ok "mpid") (.ok { closeResult := none })
      { headers := [(traceContextHeaderName, "abcdef0123456789/abcdef")] }
      "app_log").fst.trace =
      "projects/my-project/traces/abcdef0123456789" := by
  have h := (C2_trace_extraction
    { GOOGLE_CLOUD_PROJECT := "my-project", GAE_SERVICE := "my-service",
      GAE_VERSION := "my-version", K_SERVICE := "", K_REVISION := "",
      K_CONFIGURATION := "" }
    (Except.ok "mpid") { closeResult := none }
    { headers := [(traceContextHeaderName, "abcdef0123456789/abcdef")] }
    "app_log"
    { projectID := "my-project"
      resource := {
        labels := [("project_id", "my-project"),
                   ("module_id", "my-service"),
                   ("version_id", "my-version")]
        type := "gae_app" } }
    (by rfl)).1 (by decide)
  exact h.trans (by rfl)

/-- C3: when GOOGLE_CLOUD_PROJECT is absent or empty, resolution uses the
memoized metadata lookup: a lookup failure is propagated as-is; with a
fetched project ID, a missing K_SERVICE, K_REVISION, or K_CONFIGURATION
fails with the descriptive Cloud Run error, and otherwise resolution
succeeds with a cloud_run_revision resource whose labels are exactly
project_id, service_name, revision_name, and configuration_name bound to
the fetched project ID and the three variables. -/
theorem C3_cloud_run_resolution (env : Env) (m : MetadataResult)
    (hgcp : env.GOOGLE_CLOUD_PROJECT = "") :
    (∀ e, m = .error e → newServiceInfo env m = .error e) ∧
    (∀ pid, m = .ok pid →
      ((env.K_SERVICE = "" ∨ env.K_REVISION = "" ∨
          env.K_CONFIGURATION = "") →
        newServiceInfo env m = .error cloudRunEnvErrMsg) ∧
      (env.K_SERVICE ≠ "" → env.K_REVISION ≠ "" →
        env.K_CONFIGURATION ≠ "" →
        newServiceInfo env m = .ok
          { projectID := pid
            resource := {
              labels := [("project_id", pid),
                         ("service_name", env.K_SERVICE),
                         ("revision_name", env.K_REVISION),
                         ("configuration_name", env.K_CONFIGURATION)]
              type := CloudRunResourceType } })) := by
  constructor
  · intro e he
    subst he
    exact newServiceInfo_metadata_err hgcp e
  · intro pid hpid
    subst hpid
    constructor
    · intro hmiss
      exact newServiceInfo_cr_missing hgcp pid hmiss
    · intro hs hr hc
      exact newServiceInfo_cr_ok hgcp pid hs hr hc

/-- Witness for C3 at a concrete Cloud Run environment with a fetched
project ID. -/
theorem C3_cloud_run_resolution_witness :
    newServiceInfo
      { GOOGLE_CLOUD_PROJECT := "", GAE_SERVICE := "", GAE_VERSION := "",
        K_SERVICE := "svc", K_REVISION := "rev", K_CONFIGURATION := "cfg" }
      (.ok "cr-project") = .ok
      { projectID := "cr-project"
        resource := {
          labels := [("project_id", "cr-project"),
                     ("service_name", "svc"),
                     ("revision_name", "rev"),
                     ("configuration_name", "cfg")]
          type := CloudRunResourceType } } :=
  (((C3_cloud_run_resolution
    { GOOGLE_CLOUD_PROJECT := "", GAE_SERVICE := "", GAE_VERSION := "",
      K_SERVICE := "svc", K_REVISION := "rev", K_CONFIGURATION := "cfg" }
    (.ok "cr-project") (by decide)).2 "cr-project" rfl).2
    (by decide) (by decide) (by decide))

/-- C4: when GOOGLE_CLOUD_PROJECT is set non-empty but GAE_SERVICE or
GAE_VERSION is unset or empty, NewWithID fails with the descriptive
App Engine error naming the expected variables and returns the zero
Logger, for every trace header, metadata result, client initialization
result, and Cloud Run variable values: the App Engine branch takes
precedence and no Cloud Run labels are mixed in. -/
theorem C4_gae_partial_env_fails (env : Env) (m : MetadataResult)
    (ci : Except String Client) (r : Request) (logID : String)
    (hset : env.GOOGLE_CLOUD_PROJECT ≠ "")
    (hmiss : env.GAE_SERVICE = "" ∨ env.GAE_VERSION = "") :
    NewWithID env m ci r logID = (Logger.zero, some gaeEnvErrMsg) := by
  unfold NewWithID
  rw [newServiceInfo_gae_missing hset hmiss m]

/-- Witness for C4: project set, GAE_VERSION empty, header present,
Cloud Run variables all set. -/
theorem C4_gae_partial_env_fails_witness :
    NewWithID
      { GOOGLE_CLOUD_PROJECT := "my-project", GAE_SERVICE := "my-service",
        GAE_VERSION := "", K_SERVICE := "svc", K_REVISION := "rev",
        K_CONFIGURATION := "cfg" }
      (.ok "cr-project") (.ok { closeResult := none })
      { headers := [(traceContextHeaderName, "abcdef0123456789/abcdef")] }
      "app_log" = (Logger.zero, some gaeEnvErrMsg) :=
  C4_gae_partial_env_fails
    { GOOGLE_CLOUD_PROJECT := "my-project", GAE_SERVICE := "my-service",
      GAE_VERSION := "", K_SERVICE := "svc", K_REVISION := "rev",
      K_CONFIGURATION := "cfg" }
    (.ok "cr-project") (.ok { closeResult := none })
    { headers := [(traceContextHeaderName, "abcdef0123456789/abcdef")] }
    "app_log" (by decide) (by decide)

/-- C5: whenever NewWithID fails (missing environment configuration,
missing trace header, or backend client initialization failure), the
returned Logger still accepts every logging call — Logf, Log, and all
sixteen leveled wrappers — without error, routing each one to the
standard library fallback instead of the backend. -/
theorem C5_fallback_logger_usable (env : Env) (m : MetadataResult)
    (ci : Except String Client) (r : Request) (logID : String)
    (lg : Logger) (e : String)
    (h : NewWithID env m ci r logID = (lg, some e)) :
    (∀ now sev msg, lg.Logf now sev msg = .stdlog msg) ∧
    (∀ now sev v, lg.Log now sev v = .stdlog v) ∧
    (∀ now msg, lg.Debugf now msg = .stdlog msg) ∧
    (∀ now msg, lg.Infof now msg = .stdlog msg) ∧
    (∀ now msg, lg.Noticef now msg = .stdlog msg) ∧
    (∀ now msg, lg.Warningf now msg = .stdlog msg) ∧
    (∀ now msg, lg.Errorf now msg = .stdlog msg) ∧
    (∀ now msg, lg.Criticalf now msg = .stdlog msg) ∧
    (∀ now msg, lg.Alertf now msg = .stdlog msg) ∧
    (∀ now msg, lg.Emergencyf now msg = .stdlog msg) ∧
    (∀ now v, lg.DebugV now v = .stdlog v) ∧
    (∀ now v, lg.InfoV now v = .stdlog v) ∧
    (∀ now v, lg.NoticeV now v = .stdlog v) ∧
    (∀ now v, lg.WarningV now v = .stdlog v) ∧
    (∀ now v, lg.ErrorV now v = .stdlog v) ∧
    (∀ now v, lg.CriticalV now v = .stdlog v) ∧
    (∀ now v, lg.AlertV now v = .stdlog v) ∧
    (∀ now v, lg.EmergencyV now v = .stdlog v) := by
  have hz := newWithID_error_zero h
  subst hz
  exact ⟨fun _ _ _ => rfl, fun _ _ _ => rfl, fun _ _ => rfl, fun _ _ => rfl,
    fun _ _ => rfl, fun _ _ => rfl, fun _ _ => rfl, fun _ _ => rfl,
    fun _ _ => rfl, fun _ _ => rfl, fun _ _ => rfl, fun _ _ => rfl,
    fun _ _ => rfl, fun _ _ => rfl, fun _ _ => rfl, fun _ _ => rfl,
    fun _ _ => rfl, fun _ _ => rfl⟩

/-- Witness for C5: a construction that fails because the metadata lookup
failed, whose Logger still logs via the fallback. -/
theorem C5_fallback_logger_usable_witness :
    Logger.zero.Logf 0 Severity.Info "hi" = LogOutput.stdlog "hi" :=
  (C5_fallback_logger_usable
    { GOOGLE_CLOUD_PROJECT := "", GAE_SERVICE := "", GAE_VERSION := "",
      K_SERVICE := "", K_REVISION := "", K_CONFIGURATION := "" }
    (.error "metadata lookup failed") (.error "no client")
    { headers := [] } "app_log" Logger.zero "metadata lookup failed"
    (by decide)).1 0 .Info "hi"

/-- C6: Close on a Logger with no backend client handle returns nil; and
because Close neither takes arguments nor modifies the Logger, every
repetition of the call returns nil as well. On a Logger with a client
handle, Close returns the client close result verbatim. -/
theorem C6_close_behavior (lg : Logger) :
    (lg.client = none → lg.Close = none) ∧
    (∀ c, lg.client = some c → lg.Close = c.close) := by
  constructor
  · intro h
    unfold Logger.Close
    rw [h]
  · intro c h
    unfold Logger.Close
    rw [h]

/-- Witness for C6: the fallback-mode Logger closes with nil; a Logger
whose client close fails surfaces that exact error. -/
theorem C6_close_behavior_witness :
    Logger.zero.Close = none ∧
    ({ client := some { closeResult := some "flush failed" },
       logger := none, monRes := none, trace := "" } : Logger).Close =
      some "flush failed" :=
  ⟨(C6_close_behavior Logger.zero).1 rfl,
   ((C6_close_behavior
      { client := some { closeResult := some "flush failed" },
        logger := none, monRes := none, trace := "" }).2
     { closeResult := some "flush failed" } rfl).trans rfl⟩

/-- C8: every error path of NewWithID returns exactly the zero Logger —
nil client, nil logger, nil resource descriptor, empty trace — and on it
Logf and Log take the fallback branch and Close takes the no-op branch,
so no backend handle is ever dereferenced. -/
theorem C8_error_path_zero_logger (env : Env) (m : MetadataResult)
    (ci : Except String Client) (r : Request) (logID : String)
    (lg : Logger) (e : String)
    (h : NewWithID env m ci r logID = (lg, some e)) :
    lg = Logger.zero ∧ lg.client = none ∧ lg.logger = none ∧
    lg.monRes = none ∧ lg.trace = "" ∧ lg.Close = none ∧
    (∀ now sev msg, lg.Logf now sev msg = .stdlog msg) ∧
    (∀ now sev v, lg.Log now sev v = .stdlog v) := by
  have hz := newWithID_error_zero h
  subst hz
  exact ⟨rfl, rfl, rfl, rfl, rfl, rfl, fun _ _ _ => rfl, fun _ _ _ => rfl⟩

/-- Witness for C8: a construction that fails because the trace header is
missing returns the zero Logger. -/
theorem C8_error_path_zero_logger_witness :
    Logger.zero.monRes = none ∧ Logger.zero.trace = "" := by
  have h := C8_error_path_zero_logger
    { GOOGLE_CLOUD_PROJECT := "my-project", GAE_SERVICE := "my-service",
      GAE_VERSION := "my-version", K_SERVICE := "", K_REVISION := "",
      K_CONFIGURATION := "" }
    (.ok "x") (.ok { closeResult := none }) { headers := [] } "app_log"
    Logger.zero headerErrMsg (by decide)
  exact ⟨h.2.2.2.1, h.2.2.2.2.1⟩

/-- C9: the package-level Logf and Log of wrap.go behave identically to
the corresponding Logger methods when the context carries a Logger, and
route to the standard library log when it does not. -/
theorem C9_package_functions_delegate (now : Nat) (sev : Severity)
    (msg v : String) :
    (∀ lg : Logger, Logf (some lg) now sev msg = lg.Logf now sev msg) ∧
    (∀ lg : Logger, Log (some lg) now sev v = lg.Log now sev v) ∧
    Logf none now sev msg = .stdlog msg ∧
    Log none now sev v = .stdlog v :=
  ⟨fun _ => rfl, fun _ => rfl, rfl, rfl⟩

/-- C10: when resolution succeeded and the header value begins with a
slash, construction still succeeds (the presence check rejects only the
entirely empty value) and the stored trace is
projects/(projectID)/traces/ with an empty trace component. -/
theorem C10_leading_slash_trace (env : Env) (m : MetadataResult)
    (c : Client) (r : Request) (logID : String) (info : serviceInfo)
    (rest : String)
    (hinfo : newServiceInfo env m = .ok info)
    (hheader : r.headerGet traceContextHeaderName = "/" ++ rest) :
    (NewWithID env m (.ok c) r logID).snd = none ∧
    (NewWithID env m (.ok c) r logID).fst.trace =
      "projects/" ++ info.projectID ++ "/traces/" := by
  have hne : r.headerGet traceContextHeaderName ≠ "" := by
    rw [hheader]
    intro hc
    have h2 : ('/' :: rest.data : List Char) = ([] : List Char) :=
      congrArg String.data hc
    exact List.noConfusion h2
  have hsplit : splitFirst (r.headerGet traceContextHeaderName) = "" := by
    rw [hheader]
    unfold splitFirst
    show String.mk (List.takeWhile (fun c => c != '/') ('/' :: rest.data)) = ""
    rw [List.takeWhile_cons]
    simp
  rw [newWithID_success hinfo hne]
  refine ⟨rfl, ?_⟩
  show traceID info.projectID (splitFirst (r.headerGet traceContextHeaderName))
    = "projects/" ++ info.projectID ++ "/traces/"
  rw [hsplit]
  unfold traceID
  rw [String.append_empty]

/-- Witness for C10: a header value of /abcdef produces a successful
construction whose trace ends in traces/ with an empty component. -/
theorem C10_leading_slash_trace_witness :
    (NewWithID
      { GOOGLE_CLOUD_PROJECT := "my-project", GAE_SERVICE := "my-service",
        GAE_VERSION := "my-version", K_SERVICE := "", K_REVISION := "",
        K_CONFIGURATION := "" }
      (.ok "mpid") (.ok { closeResult := none })
      { headers := [(traceContextHeaderName, "/abcdef")] } "app_log").snd
      = none ∧
    (NewWithID
      { GOOGLE_CLOUD_PROJECT := "my-project", GAE_SERVICE := "my-service",
        GAE_VERSION := "my-version", K_SERVICE := "", K_REVISION := "",
        K_CONFIGURATION := "" }
      (.ok "mpid") (.ok { closeResult := none })
      { headers := [(traceContextHeaderName, "/abcdef")] } "app_log").fst.trace
      = "projects/my-project/traces/" := by
  have h := C10_leading_slash_trace
    { GOOGLE_CLOUD_PROJECT := "my-project", GAE_SERVICE := "my-service",
      GAE_VERSION := "my-version", K_SERVICE := "", K_REVISION := "",
      K_CONFIGURATION := "" }
    (.ok "mpid") { closeResult := none }
    { headers := [(traceContextHeaderName, "/abcdef")] } "app_log"
    { projectID := "my-project"
      resource := {
        labels := [("project_id", "my-project"),
                   ("module_id", "my-service"),
                   ("version_id", "my-version")]
        type := "gae_app" } }
    "abcdef" (by rfl) (by decide)
  exact ⟨h.1, h.2.trans (by rfl)⟩

end Gaelog
